import Mathlib

/-!
Verification of the Palitana Yatra offline-first scan pipeline.

The definitions below are a shallow embedding of the offline-first delivery
and deduplication pipeline of the repository:

* `hooks/use-offline-sync.ts` — the durable pending queue, duplicate index,
  dispatcher (`syncSingleScan`), cycle orchestrator (`syncPendingScans`),
  backoff (`getRetryDelay`) and polling configuration;
* the server-side Google Sheets logger (`GoogleSheetsLogger`) — the bounded
  secondary-sink retry queue;
* the authoritative write path (`scanLogs.create`), whose contract is
  specified but whose server implementation is exercised only through its
  callers and tests.

Asynchronous effects are made explicit: network dispatch outcomes are passed
in as parameters (`DispatchOutcome`), persisted storage is a component of the
state (`storedPendingScans` models the AsyncStorage copy), and console output
relevant to the claims is returned as data (`SheetsLogLine`).
-/

namespace PalitanaYatra

/-- Mirror of SYNC_CONFIG in hooks/use-offline-sync.ts. -/
structure SyncConfig where
  POLL_INTERVAL_ONLINE : Nat
  POLL_INTERVAL_OFFLINE : Nat
  BASE_RETRY_DELAY : Nat
  MAX_RETRY_DELAY : Nat
  MAX_RETRIES : Nat
  BATCH_SIZE : Nat
deriving DecidableEq, Repr

/-- Sync configuration values from hooks/use-offline-sync.ts lines 28-35. -/
def SYNC_CONFIG : SyncConfig :=
  { POLL_INTERVAL_ONLINE := 5000
    POLL_INTERVAL_OFFLINE := 30000
    BASE_RETRY_DELAY := 1000
    MAX_RETRY_DELAY := 30000
    MAX_RETRIES := 10
    BATCH_SIZE := 50 }

/-- Exponential backoff delay, from getRetryDelay in hooks/use-offline-sync.ts
lines 42-47. `Math.random() * 500` is modelled by the explicit `jitter`
parameter, an arbitrary rational in [0, 500). -/
def getRetryDelay (retryCount : Nat) (jitter : ℚ) : ℚ :=
  let delay : ℚ := (SYNC_CONFIG.BASE_RETRY_DELAY : ℚ) * 2 ^ retryCount
  min (delay + jitter) (SYNC_CONFIG.MAX_RETRY_DELAY : ℚ)

/-- Mirror of the PendingScan interface in hooks/use-offline-sync.ts. -/
structure PendingScan where
  id : String
  participantId : String
  checkpointId : Nat
  timestamp : String
  deviceId : String
  gpsLat : Option ℚ := none
  gpsLng : Option ℚ := none
  retryCount : Nat
  createdAt : String
deriving DecidableEq, Repr

/-- Mirror of the app-level ScanLog shape produced in hooks/use-offline-sync.ts
(lines 147-171): database rows carry `synced := true`, pending entries
`synced := false`. -/
structure ScanLog where
  id : String
  participantId : String
  checkpointId : Nat
  timestamp : String
  deviceId : Option String := none
  gpsLat : Option ℚ := none
  gpsLng : Option ℚ := none
  synced : Bool
deriving DecidableEq, Repr

/-- Hook state of useOfflineSync. `pendingScans` is the React state,
`storedPendingScans` the AsyncStorage copy under PENDING_SCANS; both are
written together by savePendingScans. -/
structure SyncState where
  isOnline : Bool
  isSyncing : Bool
  pendingScans : List PendingScan
  storedPendingScans : List PendingScan
  lastSyncTime : Option Nat
  syncError : Option String
  deviceId : String
deriving DecidableEq, Repr

/-- savePendingScans (hooks/use-offline-sync.ts lines 247-250): persist to
AsyncStorage and update React state. -/
def savePendingScans (st : SyncState) (scans : List PendingScan) : SyncState :=
  { st with storedPendingScans := scans, pendingScans := scans }

/-- isDuplicateScan (hooks/use-offline-sync.ts lines 255-270): the local
duplicate index, checking synced scans and pending scans for the
(participantId, checkpointId) key. -/
def isDuplicateScan (scanLogs : List ScanLog) (pendingScans : List PendingScan)
    (participantId : String) (checkpointId : Nat) : Bool :=
  scanLogs.any (fun log => log.participantId == participantId
      && log.checkpointId == checkpointId)
  || pendingScans.any (fun scan => scan.participantId == participantId
      && scan.checkpointId == checkpointId)

/-- Result shape of addScan. -/
structure AddScanResult where
  success : Bool
  duplicate : Bool
  scanLog : Option ScanLog
deriving DecidableEq, Repr

/-- addScan (hooks/use-offline-sync.ts lines 275-324). The generated UUID and
current timestamp are passed in (`newId`, `now`). The third component of the
result is the fire-and-forget dispatch request: `some newScan` when the code
calls syncSingleScan(newScan) without awaiting it (online), `none` otherwise.
The returned AddScanResult is computed without reference to any dispatch
outcome, mirroring the code returning as soon as savePendingScans resolves. -/
def addScan (scanLogs : List ScanLog) (st : SyncState) (newId participantId : String)
    (checkpointId : Nat) (now : String) (gpsLat gpsLng : Option ℚ) :
    AddScanResult × SyncState × Option PendingScan :=
  if isDuplicateScan scanLogs st.pendingScans participantId checkpointId then
    ({ success := false, duplicate := true, scanLog := none }, st, none)
  else
    let newScan : PendingScan :=
      { id := newId, participantId := participantId, checkpointId := checkpointId
        timestamp := now, deviceId := st.deviceId, gpsLat := gpsLat, gpsLng := gpsLng
        retryCount := 0, createdAt := now }
    let updatedPending := st.pendingScans ++ [newScan]
    let st' := savePendingScans st updatedPending
    ({ success := true, duplicate := false
       scanLog := some
         { id := newScan.id, participantId := newScan.participantId
           checkpointId := newScan.checkpointId, timestamp := newScan.timestamp
           deviceId := some newScan.deviceId, gpsLat := newScan.gpsLat
           gpsLng := newScan.gpsLng, synced := false } },
     st', if st.isOnline then some newScan else none)

/-- Outcome of one createScanMutation.mutateAsync call: either a response
carrying the success/duplicate flags, or a thrown error (network failure,
timeout, server error). -/
inductive DispatchOutcome where
  | response (success duplicate : Bool)
  | failure
deriving DecidableEq, Repr

/-- syncSingleScan (hooks/use-offline-sync.ts lines 329-366). On a response
with success or duplicate, the scan is filtered out of the pending queue and
the call returns true. On any other response it returns false without
touching the queue. On a thrown error, the scan's retryCount is incremented
and every scan whose retryCount has reached MAX_RETRIES is filtered out of
the queue (lines 354-360). -/
def syncSingleScan (st : SyncState) (scan : PendingScan) (outcome : DispatchOutcome) :
    SyncState × Bool :=
  match outcome with
  | .response success duplicate =>
    if success || duplicate then
      (savePendingScans st (st.pendingScans.filter (fun s => s.id != scan.id)), true)
    else
      (st, false)
  | .failure =>
    let updated := st.pendingScans.map
      (fun s => if s.id == scan.id then { s with retryCount := s.retryCount + 1 } else s)
    let filtered := updated.filter (fun s => s.retryCount < SYNC_CONFIG.MAX_RETRIES)
    (savePendingScans st filtered, false)

/-- The sort `[...pendingScans].sort((a, b) => a.retryCount - b.retryCount)`
in syncPendingScans (line 381). JS Array.prototype.sort is a stable sort; a
stable sort consistent with that comparator is insertion sort by
retryCount. -/
def sortedByRetryCount (scans : List PendingScan) : List PendingScan :=
  List.insertionSort (fun a b => a.retryCount ≤ b.retryCount) scans

/-- syncPendingScans (hooks/use-offline-sync.ts lines 371-416). Dispatch
outcomes are supplied by `outcome`; the second component of the result is the
list of scans the cycle dispatches, in dispatch order. Each syncSingleScan
call inside the cycle reads the pendingScans closure captured when the cycle
began (React useCallback), so every iteration starts its queue computation
from the cycle-start queue; that closure capture is made explicit by
resetting `pendingScans` to the snapshot before each call. -/
def syncPendingScans (st : SyncState) (outcome : PendingScan → DispatchOutcome)
    (now : Nat) : SyncState × List PendingScan :=
  if !st.isOnline || st.isSyncing || st.pendingScans.isEmpty then
    (st, [])
  else
    let sortedScans := sortedByRetryCount st.pendingScans
    let scansToSync := sortedScans.take SYNC_CONFIG.BATCH_SIZE
    let stSyncing := { st with isSyncing := true, syncError := none }
    let stAfter := scansToSync.foldl
      (fun s scan =>
        (syncSingleScan { s with pendingScans := st.pendingScans } scan (outcome scan)).1)
      stSyncing
    ({ stAfter with isSyncing := false, lastSyncTime := some now }, scansToSync)

/-- The refetchInterval option passed to trpc.scanLogs.list.useQuery and
trpc.participants.list.useQuery (hooks/use-offline-sync.ts lines 101-116):
`isOnline ? SYNC_CONFIG.POLL_INTERVAL_ONLINE : false`. `none` models the
literal `false`, which disables periodic refetching. -/
def scanLogsRefetchInterval (isOnline : Bool) : Option Nat :=
  if isOnline then some SYNC_CONFIG.POLL_INTERVAL_ONLINE else none

/-- Mirror of the ScanLogData interface in the server-side Google Sheets
logger. -/
structure ScanLogData where
  uuid : String
  participantUuid : String
  participantName : String
  participantBadge : String
  checkpointId : Nat
  checkpointName : String
  deviceId : Option String := none
  gpsLat : Option String := none
  gpsLng : Option String := none
  scannedAt : String
deriving DecidableEq, Repr

/-- GoogleSheetsLogger.maxRetryQueueSize (1000, "Prevent memory issues"). -/
def maxRetryQueueSize : Nat := 1000

/-- Console lines the Google Sheets logger emits that are relevant to the
retry queue: the console.log on enqueue in logScan, and the console.error on
drop in the retry processor. logScan has no corresponding drop message. -/
inductive SheetsLogLine where
  | addedToRetryQueue (pendingCount : Nat)
  | droppingRetryQueueFull (uuid : String)
deriving DecidableEq, Repr

/-- Retry-queue update performed by GoogleSheetsLogger.logScan (lines 211-219
of the logger) when the logger is configured and enabled. `ok` is the success
flag of the awaited logScanDirect call. On failure the scan is pushed only if
the queue is below maxRetryQueueSize; when the queue is full the scan is not
enqueued and no console line is emitted (the `if` has no else branch). -/
def logScanQueueUpdate (failedScans : List ScanLogData) (scanData : ScanLogData)
    (ok : Bool) : List ScanLogData × List SheetsLogLine :=
  if ok then
    (failedScans, [])
  else if failedScans.length < maxRetryQueueSize then
    (failedScans ++ [scanData], [.addedToRetryQueue (failedScans.length + 1)])
  else
    (failedScans, [])

/-- One iteration of the loop in GoogleSheetsLogger.startRetryProcessor
(lines 123-133): on a failed redelivery the scan is pushed back only while
the rebuilt queue is below maxRetryQueueSize, otherwise it is dropped with a
console.error. -/
def retryTickStep (acc : List ScanLogData × List SheetsLogLine) (scan : ScanLogData)
    (ok : Bool) : List ScanLogData × List SheetsLogLine :=
  if ok then
    acc
  else if acc.1.length < maxRetryQueueSize then
    (acc.1 ++ [scan], acc.2)
  else
    (acc.1, acc.2 ++ [.droppingRetryQueueFull scan.uuid])

/-- One 30-second tick of GoogleSheetsLogger.startRetryProcessor (lines
115-138): snapshot the whole queue, clear it, attempt redelivery of every
entry in order and requeue the failures via retryTickStep. `ok` gives each
logScanDirect outcome. -/
def retryTick (failedScans : List ScanLogData) (ok : ScanLogData → Bool) :
    List ScanLogData × List SheetsLogLine :=
  failedScans.foldl (fun acc scan => retryTickStep acc scan (ok scan)) ([], [])

/-- A row of the authoritative scan_logs store, reduced to the fields the
uniqueness contract speaks about. -/
structure AuthScanRecord where
  id : String
  participantRef : String
  checkpointId : Nat
deriving DecidableEq, Repr

/-- Result shape of the authoritative create call. -/
structure CreateResult where
  accepted : Bool
  duplicate : Bool
deriving DecidableEq, Repr

/-- Modelled from the spec: the Authoritative Write Path `create` contract of
spec section 4.7. The server implementation of scanLogs.create
(server/routers.ts) is not under src/; only its tests and callers are. Per
the contract, the check for an existing Confirmed row sharing
(participantRef, checkpointId) and the insertion form one atomic operation:
a call either observes the key present and returns duplicate, or inserts and
returns accepted, with no interleaving between check and insert. -/
def authCreate (store : List AuthScanRecord) (id participantRef : String)
    (checkpointId : Nat) : CreateResult × List AuthScanRecord :=
  if store.any (fun r => r.participantRef == participantRef
      && r.checkpointId == checkpointId) then
    ({ accepted := false, duplicate := true }, store)
  else
    ({ accepted := true, duplicate := false },
     store ++ [{ id := id, participantRef := participantRef, checkpointId := checkpointId }])

/-- Modelled from the spec: a sequence of atomic create calls for the same
(participantRef, checkpointId) key applied in order, each with its own
idempotency id, as in spec sections 4.7 and 8. Returns the per-call results
in order together with the final store. -/
def authCreateMany (store : List AuthScanRecord) (ids : List String)
    (participantRef : String) (checkpointId : Nat) :
    List CreateResult × List AuthScanRecord :=
  match ids with
  | [] => ([], store)
  | id :: rest =>
    let step := authCreate store id participantRef checkpointId
    let next := authCreateMany step.2 rest participantRef checkpointId
    (step.1 :: next.1, next.2)

/-! ### Theorems -/

/-- Claim C7: for every retry count k, the computed backoff delay lies between
BASE_DELAY * 2^k and BASE_DELAY * 2^k + JITTER_MAX inclusive, capped at
MAX_DELAY, for any jitter value in [0, 500). -/
theorem getRetryDelay_bounds (k : Nat) (jitter : ℚ)
    (h0 : 0 ≤ jitter) (h1 : jitter < 500) :
    min ((SYNC_CONFIG.BASE_RETRY_DELAY : ℚ) * 2 ^ k) (SYNC_CONFIG.MAX_RETRY_DELAY : ℚ)
        ≤ getRetryDelay k jitter ∧
    getRetryDelay k jitter
        ≤ min ((SYNC_CONFIG.BASE_RETRY_DELAY : ℚ) * 2 ^ k + 500)
            (SYNC_CONFIG.MAX_RETRY_DELAY : ℚ) := by
  unfold getRetryDelay
  constructor
  · exact min_le_min (le_add_of_nonneg_right h0) le_rfl
  · exact min_le_min (by linarith) le_rfl

/-- Witness for C7 at k = 2 and jitter = 250. -/
theorem getRetryDelay_bounds_witness :
    min ((SYNC_CONFIG.BASE_RETRY_DELAY : ℚ) * 2 ^ 2) (SYNC_CONFIG.MAX_RETRY_DELAY : ℚ)
        ≤ getRetryDelay 2 250 ∧
    getRetryDelay 2 250
        ≤ min ((SYNC_CONFIG.BASE_RETRY_DELAY : ℚ) * 2 ^ 2 + 500)
            (SYNC_CONFIG.MAX_RETRY_DELAY : ℚ) :=
  getRetryDelay_bounds 2 250 (by decide) (by decide)

/-- Claim C9 counterexample: while offline the snapshot queries are not
polled at POLL_INTERVAL_OFFLINE; the code passes `refetchInterval: false`,
which disables periodic refetching entirely. -/
theorem offline_poll_interval_unused :
    scanLogsRefetchInterval false ≠ some SYNC_CONFIG.POLL_INTERVAL_OFFLINE := by
  decide

/-- Claim C9 (amended): the snapshot queries poll every
POLL_INTERVAL_ONLINE (5000 ms) while online; while offline, periodic
refetching is disabled (`refetchInterval: false`), and POLL_INTERVAL_OFFLINE
(30000 ms) is never used as a poll interval. -/
theorem refetchInterval_by_connectivity :
    scanLogsRefetchInterval true = some SYNC_CONFIG.POLL_INTERVAL_ONLINE ∧
    scanLogsRefetchInterval false = none ∧
    SYNC_CONFIG.POLL_INTERVAL_OFFLINE = 30000 := by
  decide

/-- Claim C5: when a sync cycle is already in progress (isSyncing = true), a
further call to syncPendingScans dispatches nothing and leaves the pending
queue and all sync state unchanged. -/
theorem syncPendingScans_single_flight (st : SyncState)
    (outcome : PendingScan → DispatchOutcome) (now : Nat)
    (h : st.isSyncing = true) :
    syncPendingScans st outcome now = (st, []) := by
  simp [syncPendingScans, h]

/-- Witness for C5 on a concrete mid-cycle state with a nonempty queue. -/
theorem syncPendingScans_single_flight_witness :
    syncPendingScans
      { isOnline := true, isSyncing := true
        pendingScans := [{ id := "w5", participantId := "P5", checkpointId := 1
                           timestamp := "T5", deviceId := "device-5"
                           retryCount := 0, createdAt := "T5" }]
        storedPendingScans := [{ id := "w5", participantId := "P5", checkpointId := 1
                                 timestamp := "T5", deviceId := "device-5"
                                 retryCount := 0, createdAt := "T5" }]
        lastSyncTime := none, syncError := none, deviceId := "device-5" }
      (fun _ => .failure) 0
    = ({ isOnline := true, isSyncing := true
         pendingScans := [{ id := "w5", participantId := "P5", checkpointId := 1
                            timestamp := "T5", deviceId := "device-5"
                            retryCount := 0, createdAt := "T5" }]
         storedPendingScans := [{ id := "w5", participantId := "P5", checkpointId := 1
                                  timestamp := "T5", deviceId := "device-5"
                                  retryCount := 0, createdAt := "T5" }]
         lastSyncTime := none, syncError := none, deviceId := "device-5" }, []) :=
  syncPendingScans_single_flight _ _ _ rfl

/-- Claim C10: when the local duplicate index reports the
(participantId, checkpointId) key as known, addScan returns success = false
and duplicate = true, leaves the whole state (pending queue, persisted copy
and all) unchanged, and fires no dispatch. -/
theorem addScan_duplicate_rejected_frame (scanLogs : List ScanLog) (st : SyncState)
    (newId participantId : String) (checkpointId : Nat) (now : String)
    (gpsLat gpsLng : Option ℚ)
    (hdup : isDuplicateScan scanLogs st.pendingScans participantId checkpointId = true) :
    addScan scanLogs st newId participantId checkpointId now gpsLat gpsLng
      = ({ success := false, duplicate := true, scanLog := none }, st, none) := by
  simp [addScan, hdup]

/-- Witness for C10: a synced scan log for (P1, 1) already exists, and a
resubmission of (P1, 1) is rejected without any state change. -/
theorem addScan_duplicate_rejected_frame_witness :
    addScan
      [{ id := "L1", participantId := "P1", checkpointId := 1
         timestamp := "T1", synced := true }]
      { isOnline := true, isSyncing := false, pendingScans := []
        storedPendingScans := [], lastSyncTime := none, syncError := none
        deviceId := "device-1" }
      "new-id" "P1" 1 "T2" none none
    = ({ success := false, duplicate := true, scanLog := none },
       { isOnline := true, isSyncing := false, pendingScans := []
         storedPendingScans := [], lastSyncTime := none, syncError := none
         deviceId := "device-1" }, none) :=
  addScan_duplicate_rejected_frame _ _ _ _ _ _ _ _ (by decide)

/-- Claim C2 (code behaviour at the failing input): a pending scan whose
retryCount stands at MAX_RETRIES - 1 = 9 suffers one more transient dispatch
failure; syncSingleScan increments it to 10 and the filter at line 359 of
hooks/use-offline-sync.ts removes it from both the in-memory queue and the
persisted copy. No Abandoned state, dead-letter record or alert exists
anywhere in the state: the event vanishes without trace, and even syncError
stays empty. -/
theorem retry_ceiling_event_vanishes :
    (syncSingleScan
      { isOnline := true, isSyncing := false
        pendingScans := [{ id := "scan-9", participantId := "P1", checkpointId := 1
                           timestamp := "T9", deviceId := "device-1"
                           retryCount := 9, createdAt := "T9" }]
        storedPendingScans := [{ id := "scan-9", participantId := "P1", checkpointId := 1
                                 timestamp := "T9", deviceId := "device-1"
                                 retryCount := 9, createdAt := "T9" }]
        lastSyncTime := none, syncError := none, deviceId := "device-1" }
      { id := "scan-9", participantId := "P1", checkpointId := 1
        timestamp := "T9", deviceId := "device-1"
        retryCount := 9, createdAt := "T9" }
      .failure).1.pendingScans = [] ∧
    (syncSingleScan
      { isOnline := true, isSyncing := false
        pendingScans := [{ id := "scan-9", participantId := "P1", checkpointId := 1
                           timestamp := "T9", deviceId := "device-1"
                           retryCount := 9, createdAt := "T9" }]
        storedPendingScans := [{ id := "scan-9", participantId := "P1", checkpointId := 1
                                 timestamp := "T9", deviceId := "device-1"
                                 retryCount := 9, createdAt := "T9" }]
        lastSyncTime := none, syncError := none, deviceId := "device-1" }
      { id := "scan-9", participantId := "P1", checkpointId := 1
        timestamp := "T9", deviceId := "device-1"
        retryCount := 9, createdAt := "T9" }
      .failure).1.storedPendingScans = [] ∧
    (syncSingleScan
      { isOnline := true, isSyncing := false
        pendingScans := [{ id := "scan-9", participantId := "P1", checkpointId := 1
                           timestamp := "T9", deviceId := "device-1"
                           retryCount := 9, createdAt := "T9" }]
        storedPendingScans := [{ id := "scan-9", participantId := "P1", checkpointId := 1
                                 timestamp := "T9", deviceId := "device-1"
                                 retryCount := 9, createdAt := "T9" }]
        lastSyncTime := none, syncError := none, deviceId := "device-1" }
      { id := "scan-9", participantId := "P1", checkpointId := 1
        timestamp := "T9", deviceId := "device-1"
        retryCount := 9, createdAt := "T9" }
      .failure).1.syncError = none := by
  decide

/-- Claim C4: for a submission whose key is not a known duplicate, addScan
appends the new event to both the in-memory pending queue and its persisted
copy (the append is reflected in storage in the very state in which the
result is handed back, i.e. the persist completes before the caller sees
success = true), returns success = true and duplicate = false, and does all
of this identically whether isOnline is true or false — the returned value
is a function of local state only and never depends on a dispatch or network
response (syncSingleScan is fired without being awaited). -/
theorem addScan_durable_append (scanLogs : List ScanLog) (st : SyncState)
    (newId participantId : String) (checkpointId : Nat) (now : String)
    (gpsLat gpsLng : Option ℚ) (b : Bool)
    (hdup : isDuplicateScan scanLogs st.pendingScans participantId checkpointId = false) :
    (addScan scanLogs { st with isOnline := b }
        newId participantId checkpointId now gpsLat gpsLng).1.success = true ∧
    (addScan scanLogs { st with isOnline := b }
        newId participantId checkpointId now gpsLat gpsLng).1.duplicate = false ∧
    (addScan scanLogs { st with isOnline := b }
        newId participantId checkpointId now gpsLat gpsLng).2.1.pendingScans
      = st.pendingScans ++
          [{ id := newId, participantId := participantId, checkpointId := checkpointId
             timestamp := now, deviceId := st.deviceId, gpsLat := gpsLat, gpsLng := gpsLng
             retryCount := 0, createdAt := now }] ∧
    (addScan scanLogs { st with isOnline := b }
        newId participantId checkpointId now gpsLat gpsLng).2.1.storedPendingScans
      = st.pendingScans ++
          [{ id := newId, participantId := participantId, checkpointId := checkpointId
             timestamp := now, deviceId := st.deviceId, gpsLat := gpsLat, gpsLng := gpsLng
             retryCount := 0, createdAt := now }] ∧
    (addScan scanLogs { st with isOnline := b }
        newId participantId checkpointId now gpsLat gpsLng).1
      = (addScan scanLogs { st with isOnline := !b }
          newId participantId checkpointId now gpsLat gpsLng).1 := by
  simp [addScan, savePendingScans, hdup]

/-- Witness for C4 on an empty store while offline (b = false). -/
theorem addScan_durable_append_witness :
    (addScan []
        { isOnline := false, isSyncing := false, pendingScans := []
          storedPendingScans := [], lastSyncTime := none, syncError := none
          deviceId := "device-4" }
        "w4" "P4" 2 "T4" none none).1.success = true ∧
    (addScan []
        { isOnline := false, isSyncing := false, pendingScans := []
          storedPendingScans := [], lastSyncTime := none, syncError := none
          deviceId := "device-4" }
        "w4" "P4" 2 "T4" none none).1.duplicate = false ∧
    (addScan []
        { isOnline := false, isSyncing := false, pendingScans := []
          storedPendingScans := [], lastSyncTime := none, syncError := none
          deviceId := "device-4" }
        "w4" "P4" 2 "T4" none none).2.1.pendingScans
      = [] ++ [{ id := "w4", participantId := "P4", checkpointId := 2
                 timestamp := "T4", deviceId := "device-4", gpsLat := none
                 gpsLng := none, retryCount := 0, createdAt := "T4" }] ∧
    (addScan []
        { isOnline := false, isSyncing := false, pendingScans := []
          storedPendingScans := [], lastSyncTime := none, syncError := none
          deviceId := "device-4" }
        "w4" "P4" 2 "T4" none none).2.1.storedPendingScans
      = [] ++ [{ id := "w4", participantId := "P4", checkpointId := 2
                 timestamp := "T4", deviceId := "device-4", gpsLat := none
                 gpsLng := none, retryCount := 0, createdAt := "T4" }] ∧
    (addScan []
        { isOnline := false, isSyncing := false, pendingScans := []
          storedPendingScans := [], lastSyncTime := none, syncError := none
          deviceId := "device-4" }
        "w4" "P4" 2 "T4" none none).1
      = (addScan []
          { isOnline := true, isSyncing := false, pendingScans := []
            storedPendingScans := [], lastSyncTime := none, syncError := none
            deviceId := "device-4" }
          "w4" "P4" 2 "T4" none none).1 :=
  addScan_durable_append []
    { isOnline := false, isSyncing := false, pendingScans := []
      storedPendingScans := [], lastSyncTime := none, syncError := none
      deviceId := "device-4" }
    "w4" "P4" 2 "T4" none none false (by decide)

/-- Removing by id equals erasing the scan itself when ids are unique. -/
theorem filter_id_ne_eq_erase (scan : PendingScan) (l : List PendingScan)
    (hnodup : (l.map PendingScan.id).Nodup) (hmem : scan ∈ l) :
    l.filter (fun s => s.id != scan.id) = l.erase scan := by
  induction l with
  | nil => cases hmem
  | cons hd t ih =>
    rw [List.map_cons, List.nodup_cons] at hnodup
    obtain ⟨hhd, ht⟩ := hnodup
    rcases List.mem_cons.mp hmem with heq | hmemt
    · subst heq
      rw [List.erase_cons_head]
      rw [List.filter_cons_of_neg (by simp)]
      apply List.filter_eq_self.mpr
      intro s hs
      simp only [bne_iff_ne, ne_eq, decide_eq_true_eq]
      intro hcontra
      exact hhd (hcontra ▸ List.mem_map_of_mem PendingScan.id hs)
    · have hidne : hd.id ≠ scan.id := by
        intro hcontra
        exact hhd (hcontra ▸ List.mem_map_of_mem PendingScan.id hmemt)
      have hne : hd ≠ scan := fun hcontra => hidne (hcontra ▸ rfl)
      rw [List.filter_cons_of_pos (by simp [hidne]),
        List.erase_cons_tail (by simp [hne]), ih ht hmemt]

/-- Claim C3: a dispatch answered Confirmed or DuplicateResolved removes
exactly the dispatched event from the pending queue (every other pending
event stays, unchanged), and a dispatch that fails transiently increments
exactly that event's retryCount by one and keeps it in the queue, all other
events untouched — provided all retry counts remain below MAX_RETRIES. -/
theorem dispatch_outcome_frame (st : SyncState) (scan : PendingScan)
    (success duplicate : Bool)
    (hnodup : (st.pendingScans.map PendingScan.id).Nodup)
    (hmem : scan ∈ st.pendingScans)
    (hterm : (success || duplicate) = true)
    (hscan : scan.retryCount + 1 < SYNC_CONFIG.MAX_RETRIES)
    (hceil : ∀ s ∈ st.pendingScans, s.retryCount < SYNC_CONFIG.MAX_RETRIES) :
    (syncSingleScan st scan (.response success duplicate)).1.pendingScans
      = st.pendingScans.erase scan ∧
    (syncSingleScan st scan .failure).1.pendingScans
      = st.pendingScans.map
          (fun s => if s.id == scan.id
            then { s with retryCount := s.retryCount + 1 } else s) := by
  constructor
  · simp only [syncSingleScan, hterm, if_pos, savePendingScans]
    exact filter_id_ne_eq_erase scan st.pendingScans hnodup hmem
  · simp only [syncSingleScan, savePendingScans]
    apply List.filter_eq_self.mpr
    intro x hx
    rcases List.mem_map.mp hx with ⟨t, htmem, rfl⟩
    by_cases hid : t.id == scan.id
    · have hts : t = scan :=
        List.inj_on_of_nodup_map hnodup htmem hmem (by simpa using hid)
      simp only [hid, if_pos, decide_eq_true_eq]
      exact hts ▸ hscan
    · simp only [hid, if_neg, Bool.false_eq_true, not_false_iff, decide_eq_true_eq]
      exact hceil t htmem

/-- Witness for C3: queue [A, B] with distinct ids; a confirmed dispatch of A
erases A, and a failed dispatch of A bumps A's retryCount, with B untouched
in both cases. -/
theorem dispatch_outcome_frame_witness :
    (syncSingleScan
      { isOnline := true, isSyncing := false
        pendingScans := [{ id := "a3", participantId := "PA", checkpointId := 1
                           timestamp := "TA", deviceId := "device-3"
                           retryCount := 0, createdAt := "TA" },
                         { id := "b3", participantId := "PB", checkpointId := 1
                           timestamp := "TB", deviceId := "device-3"
                           retryCount := 3, createdAt := "TB" }]
        storedPendingScans := [], lastSyncTime := none, syncError := none
        deviceId := "device-3" }
      { id := "a3", participantId := "PA", checkpointId := 1
        timestamp := "TA", deviceId := "device-3"
        retryCount := 0, createdAt := "TA" }
      (.response true false)).1.pendingScans
      = [{ id := "a3", participantId := "PA", checkpointId := 1
           timestamp := "TA", deviceId := "device-3"
           retryCount := 0, createdAt := "TA" },
         { id := "b3", participantId := "PB", checkpointId := 1
           timestamp := "TB", deviceId := "device-3"
           retryCount := 3, createdAt := "TB" }].erase
          { id := "a3", participantId := "PA", checkpointId := 1
            timestamp := "TA", deviceId := "device-3"
            retryCount := 0, createdAt := "TA" } ∧
    (syncSingleScan
      { isOnline := true, isSyncing := false
        pendingScans := [{ id := "a3", participantId := "PA", checkpointId := 1
                           timestamp := "TA", deviceId := "device-3"
                           retryCount := 0, createdAt := "TA" },
                         { id := "b3", participantId := "PB", checkpointId := 1
                           timestamp := "TB", deviceId := "device-3"
                           retryCount := 3, createdAt := "TB" }]
        storedPendingScans := [], lastSyncTime := none, syncError := none
        deviceId := "device-3" }
      { id := "a3", participantId := "PA", checkpointId := 1
        timestamp := "TA", deviceId := "device-3"
        retryCount := 0, createdAt := "TA" }
      .failure).1.pendingScans
      = [{ id := "a3", participantId := "PA", checkpointId := 1
           timestamp := "TA", deviceId := "device-3"
           retryCount := 0, createdAt := "TA" },
         { id := "b3", participantId := "PB", checkpointId := 1
           timestamp := "TB", deviceId := "device-3"
           retryCount := 3, createdAt := "TB" }].map
          (fun s => if s.id == "a3"
            then { s with retryCount := s.retryCount + 1 } else s) :=
  dispatch_outcome_frame
    { isOnline := true, isSyncing := false
      pendingScans := [{ id := "a3", participantId := "PA", checkpointId := 1
                         timestamp := "TA", deviceId := "device-3"
                         retryCount := 0, createdAt := "TA" },
                       { id := "b3", participantId := "PB", checkpointId := 1
                         timestamp := "TB", deviceId := "device-3"
                         retryCount := 3, createdAt := "TB" }]
      storedPendingScans := [], lastSyncTime := none, syncError := none
      deviceId := "device-3" }
    { id := "a3", participantId := "PA", checkpointId := 1
      timestamp := "TA", deviceId := "device-3"
      retryCount := 0, createdAt := "TA" }
    true false (by decide) (by decide) (by decide) (by decide) (by decide)

/-- Modelled from the spec: steps 1-3 of the Sync Cycle Orchestrator
algorithm in spec section 4.4 — snapshot the Pending Store, keep only events
whose nextEligibleAt is at or before now, sort ascending by retryCount, take
up to BATCH_SIZE from the front. The PendingScan of the source has no
nextEligibleAt field, so it is passed as an external assignment. -/
def specCycleSelection (pending : List PendingScan) (nextEligibleAt : PendingScan → Nat)
    (now : Nat) : List PendingScan :=
  (sortedByRetryCount (pending.filter (fun s => nextEligibleAt s ≤ now))).take
    SYNC_CONFIG.BATCH_SIZE

/-- The batch produced by sortedByRetryCount is sorted ascending by
retryCount. -/
theorem sortedByRetryCount_sorted (l : List PendingScan) :
    (sortedByRetryCount l).Sorted (fun a b => a.retryCount ≤ b.retryCount) := by
  haveI : IsTotal PendingScan (fun a b => a.retryCount ≤ b.retryCount) :=
    ⟨fun a b => Nat.le_total a.retryCount b.retryCount⟩
  haveI : IsTrans PendingScan (fun a b => a.retryCount ≤ b.retryCount) :=
    ⟨fun _ _ _ hab hbc => Nat.le_trans hab hbc⟩
  exact List.sorted_insertionSort _ l

/-- Claim C6 counterexample: a scan with retryCount 1 failed at time 0, so
under the spec its nextEligibleAt is at least 2000 (here 2100, backoff 2000
plus jitter 100); at cycle time 100 the spec selection excludes it, yet
syncPendingScans dispatches it — the code has no eligibility filter. -/
theorem sync_cycle_no_eligibility_filter :
    (syncPendingScans
      { isOnline := true, isSyncing := false
        pendingScans := [{ id := "c6", participantId := "P6", checkpointId := 3
                           timestamp := "T6", deviceId := "device-6"
                           retryCount := 1, createdAt := "T6" }]
        storedPendingScans := [{ id := "c6", participantId := "P6", checkpointId := 3
                                 timestamp := "T6", deviceId := "device-6"
                                 retryCount := 1, createdAt := "T6" }]
        lastSyncTime := none, syncError := none, deviceId := "device-6" }
      (fun _ => .failure) 100).2
      = [{ id := "c6", participantId := "P6", checkpointId := 3
           timestamp := "T6", deviceId := "device-6"
           retryCount := 1, createdAt := "T6" }] ∧
    specCycleSelection
      [{ id := "c6", participantId := "P6", checkpointId := 3
         timestamp := "T6", deviceId := "device-6"
         retryCount := 1, createdAt := "T6" }]
      (fun _ => 2100) 100 = [] := by
  decide

/-- Claim C6 (amended): each sync cycle snapshots the Pending Store, sorts
all pending events (no eligibility filter — backoff is instead honoured by an
inline sleep before each dispatch) ascending by retryCount with a stable
sort, and dispatches at most BATCH_SIZE (50) of them from the front, in that
order. -/
theorem sync_cycle_batch_selection (st : SyncState)
    (outcome : PendingScan → DispatchOutcome) (now : Nat)
    (hon : st.isOnline = true) (hsync : st.isSyncing = false)
    (hne : st.pendingScans ≠ []) :
    (syncPendingScans st outcome now).2
        = (sortedByRetryCount st.pendingScans).take SYNC_CONFIG.BATCH_SIZE ∧
    (syncPendingScans st outcome now).2.Sorted
        (fun a b => a.retryCount ≤ b.retryCount) ∧
    (syncPendingScans st outcome now).2.length ≤ SYNC_CONFIG.BATCH_SIZE ∧
    List.Perm (sortedByRetryCount st.pendingScans) st.pendingScans := by
  have hbatch : (syncPendingScans st outcome now).2
      = (sortedByRetryCount st.pendingScans).take SYNC_CONFIG.BATCH_SIZE := by
    simp [syncPendingScans, hon, hsync, hne]
  refine ⟨hbatch, ?_, ?_, List.perm_insertionSort _ _⟩
  · rw [hbatch]
    exact (sortedByRetryCount_sorted st.pendingScans).sublist (List.take_sublist _ _)
  · rw [hbatch]
    exact List.length_take_le _ _

/-- Witness for C6 on a two-element queue out of retryCount order. -/
theorem sync_cycle_batch_selection_witness :
    (syncPendingScans
      { isOnline := true, isSyncing := false
        pendingScans := [{ id := "w6a", participantId := "PA", checkpointId := 1
                           timestamp := "TA", deviceId := "device-6"
                           retryCount := 2, createdAt := "TA" },
                         { id := "w6b", participantId := "PB", checkpointId := 1
                           timestamp := "TB", deviceId := "device-6"
                           retryCount := 0, createdAt := "TB" }]
        storedPendingScans := [], lastSyncTime := none, syncError := none
        deviceId := "device-6" }
      (fun _ => .response true false) 7).2
        = (sortedByRetryCount
            [{ id := "w6a", participantId := "PA", checkpointId := 1
               timestamp := "TA", deviceId := "device-6"
               retryCount := 2, createdAt := "TA" },
             { id := "w6b", participantId := "PB", checkpointId := 1
               timestamp := "TB", deviceId := "device-6"
               retryCount := 0, createdAt := "TB" }]).take SYNC_CONFIG.BATCH_SIZE ∧
    (syncPendingScans
      { isOnline := true, isSyncing := false
        pendingScans := [{ id := "w6a", participantId := "PA", checkpointId := 1
                           timestamp := "TA", deviceId := "device-6"
                           retryCount := 2, createdAt := "TA" },
                         { id := "w6b", participantId := "PB", checkpointId := 1
                           timestamp := "TB", deviceId := "device-6"
                           retryCount := 0, createdAt := "TB" }]
        storedPendingScans := [], lastSyncTime := none, syncError := none
        deviceId := "device-6" }
      (fun _ => .response true false) 7).2.Sorted
        (fun a b => a.retryCount ≤ b.retryCount) ∧
    (syncPendingScans
      { isOnline := true, isSyncing := false
        pendingScans := [{ id := "w6a", participantId := "PA", checkpointId := 1
                           timestamp := "TA", deviceId := "device-6"
                           retryCount := 2, createdAt := "TA" },
                         { id := "w6b", participantId := "PB", checkpointId := 1
                           timestamp := "TB", deviceId := "device-6"
                           retryCount := 0, createdAt := "TB" }]
        storedPendingScans := [], lastSyncTime := none, syncError := none
        deviceId := "device-6" }
      (fun _ => .response true false) 7).2.length ≤ SYNC_CONFIG.BATCH_SIZE ∧
    List.Perm
      (sortedByRetryCount
        [{ id := "w6a", participantId := "PA", checkpointId := 1
           timestamp := "TA", deviceId := "device-6"
           retryCount := 2, createdAt := "TA" },
         { id := "w6b", participantId := "PB", checkpointId := 1
           timestamp := "TB", deviceId := "device-6"
           retryCount := 0, createdAt := "TB" }])
      [{ id := "w6a", participantId := "PA", checkpointId := 1
         timestamp := "TA", deviceId := "device-6"
         retryCount := 2, createdAt := "TA" },
       { id := "w6b", participantId := "PB", checkpointId := 1
         timestamp := "TB", deviceId := "device-6"
         retryCount := 0, createdAt := "TB" }] :=
  sync_cycle_batch_selection
    { isOnline := true, isSyncing := false
      pendingScans := [{ id := "w6a", participantId := "PA", checkpointId := 1
                         timestamp := "TA", deviceId := "device-6"
                         retryCount := 2, createdAt := "TA" },
                       { id := "w6b", participantId := "PB", checkpointId := 1
                         timestamp := "TB", deviceId := "device-6"
                         retryCount := 0, createdAt := "TB" }]
      storedPendingScans := [], lastSyncTime := none, syncError := none
      deviceId := "device-6" }
    (fun _ => .response true false) 7 rfl rfl (by decide)

/-- Sample sheets row, used to fill a queue in concrete evaluations. -/
def sheetRowA : ScanLogData :=
  { uuid := "sheet-a", participantUuid := "PA", participantName := "NA"
    participantBadge := "001", checkpointId := 1, checkpointName := "Gheti"
    scannedAt := "TA" }

/-- Second sample sheets row, distinct from sheetRowA. -/
def sheetRowB : ScanLogData :=
  { uuid := "sheet-b", participantUuid := "PB", participantName := "NB"
    participantBadge := "002", checkpointId := 2, checkpointName := "Khodiyar"
    scannedAt := "TB" }

/-- A retry queue filled to its capacity of 1000 entries. -/
def fullSheetQueue : List ScanLogData := List.replicate 1000 sheetRowA

/-- The full queue sits exactly at capacity. -/
theorem fullSheetQueue_length : fullSheetQueue.length = maxRetryQueueSize := by
  rw [fullSheetQueue, List.length_replicate, maxRetryQueueSize]

/-- The retry-processor fold never grows the rebuilt queue past
maxRetryQueueSize. -/
theorem retryTick_foldl_length_le (l : List ScanLogData) (ok : ScanLogData → Bool)
    (acc : List ScanLogData × List SheetsLogLine)
    (hacc : acc.1.length ≤ maxRetryQueueSize) :
    (l.foldl (fun a scan => retryTickStep a scan (ok scan)) acc).1.length
      ≤ maxRetryQueueSize := by
  induction l generalizing acc with
  | nil => exact hacc
  | cons hd t ih =>
    apply ih
    unfold retryTickStep
    cases hok : ok hd with
    | true => simpa [hok] using hacc
    | false =>
      simp only [hok, Bool.false_eq_true, if_false]
      by_cases hlt : acc.1.length < maxRetryQueueSize
      · simp only [hlt, if_true, List.length_append, List.length_cons, List.length_nil]
        omega
      · simpa [hlt] using hacc

/-- Claim C8 counterexample: with the retry queue full (1000 entries) and a
failing direct write, logScan drops the new entry without enqueueing it and
emits no console line at all — the full-queue branch of logScan is silent
(only the 30-second retry processor logs on drop). -/
theorem sheets_logScan_drop_is_silent :
    (logScanQueueUpdate fullSheetQueue sheetRowB false).1 = fullSheetQueue ∧
    sheetRowB ∉ (logScanQueueUpdate fullSheetQueue sheetRowB false).1 ∧
    (logScanQueueUpdate fullSheetQueue sheetRowB false).2 = [] := by
  have hup : logScanQueueUpdate fullSheetQueue sheetRowB false = (fullSheetQueue, []) := by
    unfold logScanQueueUpdate
    simp [fullSheetQueue_length]
  refine ⟨by rw [hup], ?_, by rw [hup]⟩
  rw [hup]
  simp only [fullSheetQueue, List.mem_replicate, not_and]
  intro _
  exact fun heq => absurd (congrArg ScanLogData.uuid heq) (by decide)

/-- Claim C8 (amended): the failed-scans retry queue never exceeds its
capacity of 1000 after a logScan call (given it was within capacity before)
nor after a retry-processor tick (unconditionally: the tick rebuilds the
queue from empty); an entry that would exceed the capacity is dropped rather
than enqueued — silently in logScan (no console line), and with a logged
console.error in the retry processor. -/
theorem sheets_retry_queue_bounded (q qfull : List ScanLogData) (s : ScanLogData)
    (ok : Bool) (okf : ScanLogData → Bool) (warnings : List SheetsLogLine)
    (hq : q.length ≤ maxRetryQueueSize)
    (hfull : qfull.length = maxRetryQueueSize) :
    (logScanQueueUpdate q s ok).1.length ≤ maxRetryQueueSize ∧
    (retryTick q okf).1.length ≤ maxRetryQueueSize ∧
    logScanQueueUpdate qfull s false = (qfull, []) ∧
    retryTickStep (qfull, warnings) s false
      = (qfull, warnings ++ [.droppingRetryQueueFull s.uuid]) := by
  refine ⟨?_, ?_, ?_, ?_⟩
  · unfold logScanQueueUpdate
    cases hok : ok with
    | true => simpa using hq
    | false =>
      by_cases hlt : q.length < maxRetryQueueSize
      · simp only [hlt, Bool.false_eq_true, if_false, if_true,
          List.length_append, List.length_cons, List.length_nil]
        omega
      · simpa [hlt] using hq
  · exact retryTick_foldl_length_le q okf ([], []) (by simp)
  · unfold logScanQueueUpdate
    simp [hfull]
  · unfold retryTickStep
    simp [hfull]

/-- Witness for C8: an empty queue and the full 1000-entry queue with one
pending console line. -/
theorem sheets_retry_queue_bounded_witness :
    (logScanQueueUpdate [] sheetRowB false).1.length ≤ maxRetryQueueSize ∧
    (retryTick [] (fun _ => true)).1.length ≤ maxRetryQueueSize ∧
    logScanQueueUpdate fullSheetQueue sheetRowB false = (fullSheetQueue, []) ∧
    retryTickStep (fullSheetQueue, [.addedToRetryQueue 1000]) sheetRowB false
      = (fullSheetQueue,
         [.addedToRetryQueue 1000] ++ [.droppingRetryQueueFull sheetRowB.uuid]) :=
  sheets_retry_queue_bounded [] fullSheetQueue sheetRowB false (fun _ => true)
    [.addedToRetryQueue 1000] (by simp) fullSheetQueue_length

/-- Once the key is present in the store, every further create call for that
key resolves duplicate and leaves the store unchanged. -/
theorem authCreateMany_key_present (store : List AuthScanRecord) (ids : List String)
    (participantRef : String) (checkpointId : Nat)
    (hkey : store.any (fun r => r.participantRef == participantRef
        && r.checkpointId == checkpointId) = true) :
    authCreateMany store ids participantRef checkpointId
      = (List.replicate ids.length { accepted := false, duplicate := true }, store) := by
  induction ids with
  | nil => simp [authCreateMany]
  | cons id rest ih =>
    simp [authCreateMany, authCreate, hkey, ih, List.replicate_succ]

/-- The replicate of duplicate results contains no accepted result. -/
theorem filter_accepted_replicate (n : Nat) :
    (List.replicate n { accepted := false, duplicate := true } : List CreateResult).filter
        (fun r => r.accepted) = [] := by
  induction n with
  | zero => rfl
  | succ k ih => simp [List.replicate_succ, ih]

/-- Claim C1: starting from an authoritative store with no Confirmed row for
(participantRef, checkpointId), any nonempty sequence of atomic create calls
for that key, each with its own distinct idempotency id, yields accepted on
the first call and duplicate on every other call — so exactly one call
returns accepted = true regardless of order — and the final store holds
exactly one row for the key (invariant I1 for this key). -/
theorem authoritative_create_uniqueness (store : List AuthScanRecord)
    (ids : List String) (participantRef : String) (checkpointId : Nat)
    (hne : ids ≠ []) (hdistinct : ids.Nodup)
    (hclean : store.any (fun r => r.participantRef == participantRef
        && r.checkpointId == checkpointId) = false) :
    (authCreateMany store ids participantRef checkpointId).1
      = { accepted := true, duplicate := false }
          :: List.replicate (ids.length - 1) { accepted := false, duplicate := true } ∧
    ((authCreateMany store ids participantRef checkpointId).1.filter
        (fun r => r.accepted)).length = 1 ∧
    ((authCreateMany store ids participantRef checkpointId).2.filter
        (fun r => r.participantRef == participantRef
          && r.checkpointId == checkpointId)).length = 1 := by
  match ids, hne with
  | hd :: rest, _ =>
    have hinserted : (store ++ [(⟨hd, participantRef, checkpointId⟩ : AuthScanRecord)]).any
        (fun r => r.participantRef == participantRef
          && r.checkpointId == checkpointId) = true := by
      simp [List.any_append]
    have hmany := authCreateMany_key_present
      (store ++ [(⟨hd, participantRef, checkpointId⟩ : AuthScanRecord)])
      rest participantRef checkpointId hinserted
    have hstep : authCreateMany store (hd :: rest) participantRef checkpointId
        = ({ accepted := true, duplicate := false }
            :: List.replicate rest.length { accepted := false, duplicate := true },
           store ++ [(⟨hd, participantRef, checkpointId⟩ : AuthScanRecord)]) := by
      simp [authCreateMany, authCreate, hclean, hmany]
    refine ⟨?_, ?_, ?_⟩
    · rw [hstep]
      simp
    · rw [hstep]
      simp [filter_accepted_replicate]
    · rw [hstep]
      have hnohit : store.filter (fun r => r.participantRef == participantRef
          && r.checkpointId == checkpointId) = [] := by
        rw [List.filter_eq_nil_iff]
        exact List.any_eq_false.mp hclean
      simp [List.filter_append, hnohit]

/-- Witness for C1: an empty store and three racing create calls with
distinct idempotency ids. -/
theorem authoritative_create_uniqueness_witness :
    (authCreateMany [] ["id-1", "id-2", "id-3"] "P1" 1).1
      = { accepted := true, duplicate := false }
          :: List.replicate 2 { accepted := false, duplicate := true } ∧
    ((authCreateMany [] ["id-1", "id-2", "id-3"] "P1" 1).1.filter
        (fun r => r.accepted)).length = 1 ∧
    ((authCreateMany [] ["id-1", "id-2", "id-3"] "P1" 1).2.filter
        (fun r => r.participantRef == "P1" && r.checkpointId == 1)).length = 1 :=
  authoritative_create_uniqueness [] ["id-1", "id-2", "id-3"] "P1" 1
    (by decide) (by decide) (by decide)

end PalitanaYatra
